import Mathlib

/-!
Verification of the trailing stop-loss / take-profit engine of
`trailingstoploss_tp.py` (3commas-cyber-bots).

The Python source is shallowly embedded: prices, percentages and
configuration values (Python floats) are modelled as rationals; Python's
`round(x, 2)` (round-half-to-even on the exact value) is modelled by
`round2`; code that raises an exception (the `UnboundLocalError` in
`calculate_safety_order` for non-negative profit, reachable from
`process_deals`) returns `Option.none`.  Database lookups are passed in as
a function `Nat → Option DealRecord`; database writes and platform calls
are reified as an `Action` list so that theorems can speak about what the
code pushes and persists.
-/

namespace TSL

/-- Round-half-to-even on an exact rational, the semantics of Python's
builtin `round` applied to exact values. -/
def rhe (q : ℚ) : ℤ :=
  if Int.fract q < 1 / 2 then ⌊q⌋
  else if 1 / 2 < Int.fract q then ⌊q⌋ + 1
  else if 2 ∣ ⌊q⌋ then ⌊q⌋ else ⌊q⌋ + 1

/-- Python's `round(x, 2)`: round to two decimal places, ties to even. -/
def round2 (q : ℚ) : ℚ := (rhe (q * 100) : ℚ) / 100

/-- A profit-configuration entry (one tier of `profit-config`), fields as
parsed by `float(...)` in the source. -/
structure ProfitTier where
  activationPercentage : ℚ
  initialStoplossPercentage : ℚ
  slIncrementFactor : ℚ
  tpIncrementFactor : ℚ
  deriving DecidableEq

/-- The fields of a 3Commas deal snapshot read by the program. -/
structure Deal where
  id : Nat
  strategy : String
  currentPrice : ℚ
  baseOrderAveragePrice : ℚ
  boughtAveragePrice : ℚ
  soldAveragePrice : ℚ
  actualProfitPercentage : ℚ
  stopLossPercentage : ℚ
  takeProfit : ℚ
  maxSafetyOrders : Nat
  deriving DecidableEq

/-- The fields of a bot snapshot read by the program. -/
structure Bot where
  id : Nat
  activeDeals : List Deal
  safetyOrderVolume : ℚ
  safetyOrderStepPercentage : ℚ
  martingaleVolumeCoefficient : ℚ
  martingaleStepCoefficient : ℚ
  deriving DecidableEq

/-- A row of the local `deals` table. -/
structure DealRecord where
  dealId : Nat
  botId : Nat
  lastProfitPercentage : ℚ
  lastReadableSlPercentage : ℚ
  lastReadableTpPercentage : ℚ
  deriving DecidableEq

/-- Platform calls and database writes issued by the engine, reified. -/
inductive Action where
  | updateDealProfit (dealId : Nat) (sl tp : ℚ)
  | addSafetyFunds (dealId : Nat) (qty price : ℚ)
  | addDealRecord (dealId botId : Nat) (profit sl tp : ℚ)
  | updateDealRecord (dealId : Nat) (profit sl tp : ℚ)
  | removeActiveDeal (dealId : Nat)
  | removeClosedDeals (botId : Nat) (keep : List Nat)
  | removeAllDeals (botId : Nat)
  deriving DecidableEq

/-- `calculate_slpercentage_base_price_short` (source lines 204-210). -/
def calculate_slpercentage_base_price_short (sl_price base_price : ℚ) : ℚ :=
  round2 (((sl_price / base_price) * 100) - 100)

/-- `calculate_slpercentage_base_price_long` (source lines 213-219). -/
def calculate_slpercentage_base_price_long (sl_price base_price : ℚ) : ℚ :=
  round2 (100 - ((sl_price / base_price) * 100))

/-- `calculate_average_price_sl_percentage_short` (source lines 222-228). -/
def calculate_average_price_sl_percentage_short (sl_price average_price : ℚ) : ℚ :=
  round2 (100 - ((sl_price / average_price) * 100))

/-- `calculate_average_price_sl_percentage_long` (source lines 231-237). -/
def calculate_average_price_sl_percentage_long (sl_price average_price : ℚ) : ℚ :=
  round2 (((sl_price / average_price) * 100) - 100)

/-- The scan loop of `get_config_for_profit`: overwrite the selected entry
while the activation percentage is at most the profit, break otherwise. -/
def get_config_loop (current_profit : ℚ) :
    List ProfitTier → Option ProfitTier → Option ProfitTier
  | [], acc => acc
  | entry :: rest, acc =>
      if entry.activationPercentage ≤ current_profit then
        get_config_loop current_profit rest (some entry)
      else acc

/-- `get_config_for_profit` (source lines 240-256); the empty dict `{}`
returned when no entry matches is modelled as `none`. -/
def get_config_for_profit (section_profit_config : List ProfitTier)
    (current_profit : ℚ) : Option ProfitTier :=
  get_config_loop current_profit section_profit_config none

/-- `calculate_sl_percentage` (source lines 324-374): compute the SL price
from the sold/bought average price and convert it to the 3C base-order
axis.  Returns `(average_price, sl_price, base_price_sl_percentage)`. -/
def calculate_sl_percentage (deal_data : Deal) (profit_config : ProfitTier)
    (activation_diff : ℚ) : ℚ × ℚ × ℚ :=
  let initial_stoploss_percentage := profit_config.initialStoplossPercentage
  let sl_increment_factor := profit_config.slIncrementFactor
  let average_price :=
    if deal_data.strategy = "short" then deal_data.soldAveragePrice
    else deal_data.boughtAveragePrice
  let percentage_price := average_price * ((initial_stoploss_percentage / 100)
      + ((activation_diff / 100) * sl_increment_factor))
  let sl_price :=
    if deal_data.strategy = "short" then average_price - percentage_price
    else average_price + percentage_price
  let base_price := deal_data.baseOrderAveragePrice
  let base_price_sl_percentage :=
    if deal_data.strategy = "short" then
      calculate_slpercentage_base_price_short sl_price base_price
    else
      calculate_slpercentage_base_price_long sl_price base_price
  (average_price, sl_price, base_price_sl_percentage)

/-- `handle_new_deal` (source lines 377-446).  The platform update and the
database insert are returned as actions; when the computed base SL
percentage is exactly `0.00` nothing is emitted. -/
def handle_new_deal (thebot : Bot) (deal : Deal) (profit_config : ProfitTier) :
    List Action :=
  let botid := thebot.id
  let actual_profit_percentage := deal.actualProfitPercentage
  let activation_percentage := profit_config.activationPercentage
  let activation_diff := actual_profit_percentage - activation_percentage
  let sl_data := calculate_sl_percentage deal profit_config activation_diff
  if sl_data.2.2 ≠ 0 then
    let average_price_sl_percentage :=
      if deal.strategy = "short" then
        calculate_average_price_sl_percentage_short sl_data.2.1 sl_data.1
      else
        calculate_average_price_sl_percentage_long sl_data.2.1 sl_data.1
    let current_tp_percentage := deal.takeProfit
    let new_tp_percentage := round2 (current_tp_percentage
        + (activation_diff * profit_config.tpIncrementFactor))
    [Action.updateDealProfit deal.id sl_data.2.2 new_tp_percentage,
     Action.addDealRecord deal.id botid actual_profit_percentage
       average_price_sl_percentage new_tp_percentage]
  else []

/-- `handle_update_deal` (source lines 449-537).  Emits the platform update
and the database update as actions, or nothing when a guard rejects. -/
def handle_update_deal (deal : Deal) (deal_db_data : DealRecord)
    (profit_config : ProfitTier) : List Action :=
  let actual_profit_percentage := deal.actualProfitPercentage
  let last_profit_percentage := deal_db_data.lastProfitPercentage
  if last_profit_percentage < actual_profit_percentage then
    let sl_increment_factor := profit_config.slIncrementFactor
    let tp_increment_factor := profit_config.tpIncrementFactor
    if 0 < sl_increment_factor ∨ 0 < tp_increment_factor then
      let activation_diff :=
        actual_profit_percentage - profit_config.activationPercentage
      let sl_data := calculate_sl_percentage deal profit_config activation_diff
      let current_sl_percentage := deal.stopLossPercentage
      if 0 < |sl_data.2.2| ∧ sl_data.2.2 ≠ current_sl_percentage then
        let new_average_price_sl_percentage :=
          if deal.strategy = "short" then
            calculate_average_price_sl_percentage_short sl_data.2.1 sl_data.1
          else
            calculate_average_price_sl_percentage_long sl_data.2.1 sl_data.1
        let current_tp_percentage := deal.takeProfit
        let new_tp_percentage := round2 (current_tp_percentage
            + ((actual_profit_percentage - last_profit_percentage)
              * tp_increment_factor))
        [Action.updateDealProfit deal.id sl_data.2.2 new_tp_percentage,
         Action.updateDealRecord deal.id actual_profit_percentage
           new_average_price_sl_percentage new_tp_percentage]
      else []
    else []
  else []

/-- The `while SOCounter < deal_data['max_safety_orders']` ladder loop of
`calculate_safety_order` (source lines 742-762), with an explicit fuel
parameter (the recursion depth); the loop state is
`(SOCounter, NextSO_volume, NextSO_..Drop.., TotalSODrop, SO_Volume,
SO_Price)`. -/
def so_loop (base ctpAbs volCoef stepCoef : ℚ) (maxSO : Nat) :
    Nat → Nat → ℚ → ℚ → ℚ → ℚ → ℚ → Nat × ℚ × ℚ
  | 0, counter, _, _, _, soVol, soPrice => (counter, soVol, soPrice)
  | fuel + 1, counter, nextVol, nextDrop, totalDrop, soVol, soPrice =>
      if counter < maxSO then
        let nv := nextVol * volCoef
        let nd := nextDrop * stepCoef
        let nt := totalDrop + nd
        let np := base * ((100 - nt) / 100)
        if ctpAbs < nt then (counter, soVol, soPrice)
        else so_loop base ctpAbs volCoef stepCoef maxSO fuel (counter + 1)
          nv nd nt (soVol + nv) np
      else (counter, soVol, soPrice)

/-- `calculate_safety_order` (source lines 673-768) with the loop run on an
explicit fuel.  When `actual_profit_percentage >= 0` the Python function
falls through to `return SOCounter, SO_Volume, SO_Price` with `SO_Volume`
and `SO_Price` never assigned and raises `UnboundLocalError`; that raise is
modelled as `none`. -/
def calculate_safety_order_fuel (thebot : Bot) (deal_data : Deal)
    (fuel : Nat) : Option (Nat × ℚ × ℚ) :=
  let currentTotalProfit :=
    ((deal_data.currentPrice / deal_data.baseOrderAveragePrice) * 100) - 100
  if deal_data.actualProfitPercentage < 0 then
    let nextSOvolume := thebot.safetyOrderVolume
    let nextSOdropFromBOBuyPrice := thebot.safetyOrderStepPercentage
    let nextSObuyPrice := deal_data.baseOrderAveragePrice
        * ((100 - nextSOdropFromBOBuyPrice) / 100)
    let totalSOdrop := nextSOdropFromBOBuyPrice
    if totalSOdrop < |currentTotalProfit| then
      some (so_loop deal_data.baseOrderAveragePrice |currentTotalProfit|
        thebot.martingaleVolumeCoefficient thebot.martingaleStepCoefficient
        deal_data.maxSafetyOrders fuel 1
        nextSOvolume nextSOdropFromBOBuyPrice totalSOdrop
        nextSOvolume nextSObuyPrice)
    else some (0, 0, 0)
  else none

/-- `calculate_safety_order`: the species of fuel sufficient for the while
loop is the loop bound `max_safety_orders` itself. -/
def calculate_safety_order (thebot : Bot) (deal_data : Deal) :
    Option (Nat × ℚ × ℚ) :=
  calculate_safety_order_fuel thebot deal_data deal_data.maxSafetyOrders

/-- `handle_safety_orders` (source lines 650-670): add safety funds when
the computed `SOData[0]` is positive; propagate the exception raised by
`calculate_safety_order` on non-negative profit. -/
def handle_safety_orders (thebot : Bot) (thedeal : Deal)
    (_deal_db_data : Option DealRecord) : Option (List Action) :=
  match calculate_safety_order thebot thedeal with
  | none => none
  | some soData =>
      if 0 < soData.1 then
        some [Action.addSafetyFunds thedeal.id soData.2.1 soData.2.2]
      else some []

/-- The per-deal loop of `process_deals` (source lines 270-306), returning
the ids collected in `current_deals` and the actions issued.  The
`continue` at source line 285 is unconditional, so lines 287-302 (the
calls to `handle_new_deal`, `handle_update_deal` and `remove_active_deal`,
and both `monitored_deals` assignments) are unreachable and do not appear
in the semantics. -/
def process_deals_loop (thebot : Bot) (db : Nat → Option DealRecord)
    (section_profit_config : List ProfitTier) :
    List Deal → Option (List Nat × List Action)
  | [] => some ([], [])
  | deal :: rest =>
      if deal.strategy = "short" ∨ deal.strategy = "long" then
        let _deal_db_data := db deal.id
        let _actual_profit_config :=
          get_config_for_profit section_profit_config
            deal.actualProfitPercentage
        match handle_safety_orders thebot deal (db deal.id) with
        | none => none
        | some acts =>
            match process_deals_loop thebot db section_profit_config rest with
            | none => none
            | some (ids, moreActs) => some (deal.id :: ids, acts ++ moreActs)
      else
        process_deals_loop thebot db section_profit_config rest

/-- `process_deals` (source lines 259-321): returns the monitored-deal
count together with the actions issued, or `none` when a deal's
safety-order computation raises. -/
def process_deals (thebot : Bot) (section_profit_config : List ProfitTier)
    (db : Nat → Option DealRecord) : Option (Nat × List Action) :=
  let monitored_deals := 0
  let botid := thebot.id
  let deals := thebot.activeDeals
  if deals ≠ [] then
    match process_deals_loop thebot db section_profit_config deals with
    | none => none
    | some (current_deals, acts) =>
        let housekeeping :=
          if current_deals ≠ [] then
            [Action.removeClosedDeals botid current_deals]
          else []
        some (monitored_deals, acts ++ housekeeping)
  else
    some (monitored_deals, [Action.removeAllDeals botid])

/-- The scheduling decision of the main loop (source lines 946-948): the
bot is processed again after `check_interval` seconds when no deals are
monitored, after `monitor_interval` seconds otherwise. -/
def next_process_time (starttime check_interval monitor_interval : Nat)
    (bot_deals_to_monitor : Nat) : Nat :=
  starttime + (if bot_deals_to_monitor = 0 then check_interval
               else monitor_interval)

/-- A long deal at a small loss with no stored DealRecord; the tier below
activates for it and the computed base SL percentage is nonzero. -/
def cexDealC1 : Deal := ⟨1, "long", 100, 100, 100, 100, -1/2, 0, 1, 5⟩

/-- The bot owning `cexDealC1`. -/
def cexBotC1 : Bot := ⟨7, [cexDealC1], 10, 5, 1, 1⟩

/-- A tier with a negative activation threshold, selected for `cexDealC1`. -/
def cexTierC1 : ProfitTier := ⟨-1, 1/2, 1, 0⟩

/-- A one-tier profit configuration containing `cexTierC1`. -/
def cexCfgC1 : List ProfitTier := [cexTierC1]

/-- A deal with `actual_profit_percentage = 0`. -/
def cexDealC2 : Deal := ⟨2, "long", 100, 100, 100, 100, 0, 0, 1, 5⟩

/-- The bot owning `cexDealC2`. -/
def cexBotC2 : Bot := ⟨7, [cexDealC2], 10, 5, 1, 1⟩

/-- A deal at 20% raw drawdown with `max_safety_orders = 0`. -/
def cexDealC3 : Deal := ⟨3, "long", 80, 100, 100, 100, -10, 0, 1, 0⟩

/-- The bot owning `cexDealC3` (volume 10, step 5%, coefficients 1). -/
def cexBotC3 : Bot := ⟨7, [cexDealC3], 10, 5, 1, 1⟩

/-- Like `cexDealC3` but with `max_safety_orders = 2`. -/
def wDealC3 : Deal := ⟨3, "long", 80, 100, 100, 100, -10, 0, 1, 2⟩

/-- The bot owning `wDealC3`. -/
def wBotC3 : Bot := ⟨7, [wDealC3], 10, 5, 1, 1⟩

/-- A long deal whose current take-profit `1.002` is not a two-decimal
value; rounding sends a decreased take-profit. -/
def cexDealC4 : Deal := ⟨4, "long", 100, 100, 100, 100, 2, 0, 1002/1000, 5⟩

/-- The bot owning `cexDealC4`. -/
def cexBotC4 : Bot := ⟨7, [cexDealC4], 10, 5, 1, 1⟩

/-- The tier activating at 2% for `cexDealC4`. -/
def cexTierC4 : ProfitTier := ⟨2, 1/2, 0, 0⟩

/-- Like `cexDealC4` but with the two-decimal take-profit `1.00`. -/
def wDealC4 : Deal := ⟨4, "long", 100, 100, 100, 100, 2, 0, 1, 5⟩

/-- The bot owning `wDealC4`. -/
def wBotC4 : Bot := ⟨7, [wDealC4], 10, 5, 1, 1⟩

/-- The tier activating at 2% for `wDealC4`. -/
def wTierC4 : ProfitTier := ⟨2, 1/2, 0, 0⟩

/-- An arbitrary stored DealRecord for `wDealC4`. -/
def wRecC4 : DealRecord := ⟨4, 7, 0, 0, 0⟩

/-- The default first profit tier of the shipped example configuration. -/
def wTierC5a : ProfitTier := ⟨2, 1/2, 0, 0⟩

/-- The default second profit tier of the shipped example configuration. -/
def wTierC5b : ProfitTier := ⟨3, 2, 2/5, 2/5⟩

/-- The two default tiers, ascending by activation percentage. -/
def wCfgC5 : List ProfitTier := [wTierC5a, wTierC5b]

/-- A deal whose profit (1%) is below the stored last profit. -/
def wDealC8 : Deal := ⟨8, "long", 100, 100, 100, 100, 1, -1/2, 1, 5⟩

/-- A DealRecord for `wDealC8` storing a last profit of 2%. -/
def wRecC8 : DealRecord := ⟨8, 7, 2, 1, 1⟩

/-- A tier for `wDealC8`. -/
def wTierC8 : ProfitTier := ⟨1/2, 1/2, 2/5, 2/5⟩

/-- A deal in drawdown with `max_safety_orders = 3`. -/
def wDealC9 : Deal := ⟨9, "long", 80, 100, 100, 100, -10, 0, 1, 3⟩

/-- The bot owning `wDealC9`, with martingale coefficients 1.5 and 1.2. -/
def wBotC9 : Bot := ⟨7, [wDealC9], 10, 5, 3/2, 6/5⟩

/-- A bot with no active deals. -/
def wBotC10 : Bot := ⟨9, [], 10, 5, 1, 1⟩

lemma floor_le_rhe (q : ℚ) : ⌊q⌋ ≤ rhe q := by
  unfold rhe
  split
  · exact le_refl _
  · split
    · exact Int.le_add_one (le_refl _)
    · split
      · exact le_refl _
      · exact Int.le_add_one (le_refl _)

lemma rhe_le_floor_add_one (q : ℚ) : rhe q ≤ ⌊q⌋ + 1 := by
  unfold rhe
  split
  · exact Int.le_add_one (le_refl _)
  · split
    · exact le_refl _
    · split
      · exact Int.le_add_one (le_refl _)
      · exact le_refl _

lemma rhe_neg (q : ℚ) : rhe (-q) = -rhe q := by
  by_cases h0 : Int.fract q = 0
  · have hn0 : Int.fract (-q) = 0 := Int.fract_neg_eq_zero.mpr h0
    have hq : q = (⌊q⌋ : ℚ) := by
      have := Int.floor_add_fract q
      rw [h0] at this
      linarith
    have hfl : ⌊-q⌋ = -⌊q⌋ := by
      conv_lhs => rw [hq, ← Int.cast_neg]
      exact Int.floor_intCast _
    unfold rhe
    rw [h0, hn0, if_pos (by norm_num), if_pos (by norm_num), hfl]
  · have hf : Int.fract (-q) = 1 - Int.fract q := Int.fract_neg h0
    have hfl : ⌊-q⌋ = -⌊q⌋ - 1 := by
      have h1 := Int.floor_add_fract q
      have h2 := Int.floor_add_fract (-q)
      rw [hf] at h2
      have : (⌊-q⌋ : ℚ) = ((-⌊q⌋ - 1 : ℤ) : ℚ) := by push_cast; linarith
      exact_mod_cast this
    have hpos : 0 < Int.fract q :=
      lt_of_le_of_ne (Int.fract_nonneg q) (Ne.symm h0)
    have hlt1 : Int.fract q < 1 := Int.fract_lt_one q
    rcases lt_trichotomy (Int.fract q) (1 / 2) with h | h | h
    · have e1 : rhe q = ⌊q⌋ := by unfold rhe; rw [if_pos h]
      have e2 : rhe (-q) = ⌊-q⌋ + 1 := by
        unfold rhe
        rw [hf, if_neg (by linarith), if_pos (by linarith)]
      rw [e1, e2, hfl]; ring
    · have e1 : rhe q = if 2 ∣ ⌊q⌋ then ⌊q⌋ else ⌊q⌋ + 1 := by
        unfold rhe
        rw [if_neg (by rw [h]; exact lt_irrefl _),
          if_neg (by rw [h]; exact lt_irrefl _)]
      have e2 : rhe (-q) = if 2 ∣ ⌊-q⌋ then ⌊-q⌋ else ⌊-q⌋ + 1 := by
        have hfh : Int.fract (-q) = 1 / 2 := by rw [hf, h]; norm_num
        unfold rhe
        rw [hfh, if_neg (by norm_num), if_neg (by norm_num)]
      by_cases hpar : 2 ∣ ⌊q⌋
      · have hpar2 : ¬ 2 ∣ ⌊-q⌋ := by rw [hfl]; omega
        rw [e1, e2, if_pos hpar, if_neg hpar2, hfl]; ring
      · have hpar2 : 2 ∣ ⌊-q⌋ := by rw [hfl]; omega
        rw [e1, e2, if_neg hpar, if_pos hpar2, hfl]; ring
    · have e1 : rhe q = ⌊q⌋ + 1 := by
        unfold rhe; rw [if_neg (by linarith), if_pos h]
      have e2 : rhe (-q) = ⌊-q⌋ := by
        unfold rhe; rw [hf, if_pos (by linarith)]
      rw [e1, e2, hfl]; ring

lemma fract_le_fract_of_floor_eq {x y : ℚ} (h : x ≤ y) (hfe : ⌊x⌋ = ⌊y⌋) :
    Int.fract x ≤ Int.fract y := by
  have h1 := Int.floor_add_fract x
  have h2 := Int.floor_add_fract y
  have : ((⌊x⌋ : ℤ) : ℚ) = ((⌊y⌋ : ℤ) : ℚ) := by exact_mod_cast hfe
  linarith

lemma rhe_mono {x y : ℚ} (h : x ≤ y) : rhe x ≤ rhe y := by
  rcases lt_or_eq_of_le (Int.floor_le_floor h) with hlt | hfe
  · calc rhe x ≤ ⌊x⌋ + 1 := rhe_le_floor_add_one x
      _ ≤ ⌊y⌋ := by omega
      _ ≤ rhe y := floor_le_rhe y
  · have hfr : Int.fract x ≤ Int.fract y := fract_le_fract_of_floor_eq h hfe
    by_cases h1 : Int.fract x < 1 / 2
    · have e1 : rhe x = ⌊x⌋ := by unfold rhe; rw [if_pos h1]
      rw [e1, hfe]; exact floor_le_rhe y
    · by_cases h2 : 1 / 2 < Int.fract x
      · have e1 : rhe x = ⌊x⌋ + 1 := by unfold rhe; rw [if_neg h1, if_pos h2]
        have h3 : 1 / 2 < Int.fract y := lt_of_lt_of_le h2 hfr
        have e2 : rhe y = ⌊y⌋ + 1 := by
          unfold rhe; rw [if_neg (by linarith), if_pos h3]
        rw [e1, e2, hfe]
      · by_cases h3 : 1 / 2 < Int.fract y
        · have e2 : rhe y = ⌊y⌋ + 1 := by
            unfold rhe; rw [if_neg (by linarith), if_pos h3]
          calc rhe x ≤ ⌊x⌋ + 1 := rhe_le_floor_add_one x
            _ = ⌊y⌋ + 1 := by rw [hfe]
            _ = rhe y := e2.symm
        · have h12x : Int.fract x = 1 / 2 := le_antisymm (not_lt.mp h2) (not_lt.mp h1)
          have h12y : Int.fract y = 1 / 2 := by
            have := h12x ▸ hfr
            exact le_antisymm (not_lt.mp h3) this
          have e1 : rhe x = if 2 ∣ ⌊x⌋ then ⌊x⌋ else ⌊x⌋ + 1 := by
            unfold rhe
            rw [if_neg (by rw [h12x]; exact lt_irrefl _),
              if_neg (by rw [h12x]; exact lt_irrefl _)]
          have e2 : rhe y = if 2 ∣ ⌊y⌋ then ⌊y⌋ else ⌊y⌋ + 1 := by
            unfold rhe
            rw [if_neg (by rw [h12y]; exact lt_irrefl _),
              if_neg (by rw [h12y]; exact lt_irrefl _)]
          rw [e1, e2, hfe]

lemma round2_neg (q : ℚ) : round2 (-q) = -round2 q := by
  unfold round2
  rw [show -q * 100 = -(q * 100) by ring, rhe_neg]
  push_cast
  ring

lemma round2_mono {x y : ℚ} (h : x ≤ y) : round2 x ≤ round2 y := by
  unfold round2
  have : rhe (x * 100) ≤ rhe (y * 100) :=
    rhe_mono (mul_le_mul_of_nonneg_right h (by norm_num))
  have hc : ((rhe (x * 100) : ℤ) : ℚ) ≤ ((rhe (y * 100) : ℤ) : ℚ) := by
    exact_mod_cast this
  linarith

lemma le_round2_add_of_nonneg {c d : ℚ} (hc : round2 c = c) (hd : 0 ≤ d) :
    c ≤ round2 (c + d) := by
  calc c = round2 c := hc.symm
    _ ≤ round2 (c + d) := round2_mono (by linarith)

lemma so_loop_zero (base ctpAbs volCoef stepCoef : ℚ) (maxSO counter : Nat)
    (nv nd td sv sp : ℚ) :
    so_loop base ctpAbs volCoef stepCoef maxSO 0 counter nv nd td sv sp =
      (counter, sv, sp) := rfl

lemma so_loop_succ (base ctpAbs volCoef stepCoef : ℚ) (maxSO fuel counter : Nat)
    (nv nd td sv sp : ℚ) :
    so_loop base ctpAbs volCoef stepCoef maxSO (fuel + 1) counter nv nd td sv sp =
      (if counter < maxSO then
        (if ctpAbs < td + nd * stepCoef then (counter, sv, sp)
         else so_loop base ctpAbs volCoef stepCoef maxSO fuel (counter + 1)
           (nv * volCoef) (nd * stepCoef) (td + nd * stepCoef)
           (sv + nv * volCoef) (base * ((100 - (td + nd * stepCoef)) / 100)))
      else (counter, sv, sp)) := rfl

lemma calculate_safety_order_fuel_eq (thebot : Bot) (deal_data : Deal)
    (fuel : Nat) :
    calculate_safety_order_fuel thebot deal_data fuel =
      (if deal_data.actualProfitPercentage < 0 then
        (if thebot.safetyOrderStepPercentage <
            |((deal_data.currentPrice / deal_data.baseOrderAveragePrice) * 100) - 100| then
          some (so_loop deal_data.baseOrderAveragePrice
            |((deal_data.currentPrice / deal_data.baseOrderAveragePrice) * 100) - 100|
            thebot.martingaleVolumeCoefficient thebot.martingaleStepCoefficient
            deal_data.maxSafetyOrders fuel 1
            thebot.safetyOrderVolume thebot.safetyOrderStepPercentage
            thebot.safetyOrderStepPercentage thebot.safetyOrderVolume
            (deal_data.baseOrderAveragePrice
              * ((100 - thebot.safetyOrderStepPercentage) / 100)))
        else some (0, 0, 0))
      else none) := rfl

lemma so_loop_counter_le (base ctpAbs volCoef stepCoef : ℚ) (maxSO : Nat) :
    ∀ (fuel counter : Nat) (nv nd td sv sp : ℚ), counter ≤ maxSO →
      (so_loop base ctpAbs volCoef stepCoef maxSO fuel counter nv nd td sv sp).1
        ≤ maxSO := by
  intro fuel
  induction fuel with
  | zero =>
    intro counter nv nd td sv sp hc
    rw [so_loop_zero]
    exact hc
  | succ f ih =>
    intro counter nv nd td sv sp hc
    rw [so_loop_succ]
    by_cases h : counter < maxSO
    · rw [if_pos h]
      by_cases hb : ctpAbs < td + nd * stepCoef
      · rw [if_pos hb]; exact hc
      · rw [if_neg hb]
        exact ih (counter + 1) _ _ _ _ _ (by omega)
    · rw [if_neg h]; exact hc

lemma so_loop_fuel_irrel (base ctpAbs volCoef stepCoef : ℚ) (maxSO : Nat) :
    ∀ (f1 f2 counter : Nat) (nv nd td sv sp : ℚ),
      maxSO ≤ counter + f1 → maxSO ≤ counter + f2 →
      so_loop base ctpAbs volCoef stepCoef maxSO f1 counter nv nd td sv sp =
        so_loop base ctpAbs volCoef stepCoef maxSO f2 counter nv nd td sv sp := by
  intro f1
  induction f1 with
  | zero =>
    intro f2 counter nv nd td sv sp h1 h2
    rw [so_loop_zero]
    cases f2 with
    | zero => rw [so_loop_zero]
    | succ f2' =>
      rw [so_loop_succ, if_neg (by omega)]
  | succ f ih =>
    intro f2 counter nv nd td sv sp h1 h2
    by_cases hc : counter < maxSO
    · cases f2 with
      | zero => omega
      | succ f2' =>
        rw [so_loop_succ, so_loop_succ, if_pos hc, if_pos hc]
        by_cases hb : ctpAbs < td + nd * stepCoef
        · rw [if_pos hb, if_pos hb]
        · rw [if_neg hb, if_neg hb]
          exact ih f2' (counter + 1) _ _ _ _ _ (by omega) (by omega)
    · rw [so_loop_succ, if_neg hc]
      cases f2 with
      | zero => rw [so_loop_zero]
      | succ f2' => rw [so_loop_succ, if_neg hc]

lemma get_config_loop_eq_acc_or_mem (profit : ℚ) :
    ∀ (l : List ProfitTier) (acc : Option ProfitTier) (t : ProfitTier),
      get_config_loop profit l acc = some t → acc = some t ∨ t ∈ l := by
  intro l
  induction l with
  | nil => intro acc t h; exact Or.inl h
  | cons e rest ih =>
    intro acc t h
    unfold get_config_loop at h
    by_cases hc : e.activationPercentage ≤ profit
    · rw [if_pos hc] at h
      rcases ih (some e) t h with h1 | h1
      · rw [Option.some.injEq] at h1
        exact Or.inr (h1 ▸ List.mem_cons_self e rest)
      · exact Or.inr (List.mem_cons_of_mem e h1)
    · rw [if_neg hc] at h
      exact Or.inl h

lemma get_config_loop_le (profit : ℚ) :
    ∀ (l : List ProfitTier) (acc : Option ProfitTier) (t : ProfitTier),
      (∀ a, acc = some a → a.activationPercentage ≤ profit) →
      get_config_loop profit l acc = some t → t.activationPercentage ≤ profit := by
  intro l
  induction l with
  | nil => intro acc t hacc h; exact hacc t h
  | cons e rest ih =>
    intro acc t hacc h
    unfold get_config_loop at h
    by_cases hc : e.activationPercentage ≤ profit
    · rw [if_pos hc] at h
      refine ih (some e) t ?_ h
      intro a ha
      rw [Option.some.injEq] at ha
      exact ha ▸ hc
    · rw [if_neg hc] at h
      exact hacc t h

lemma get_config_loop_max (profit : ℚ) :
    ∀ (l : List ProfitTier) (acc : Option ProfitTier) (t : ProfitTier),
      List.Pairwise
        (fun a b => a.activationPercentage ≤ b.activationPercentage) l →
      get_config_loop profit l acc = some t →
      ∀ u ∈ l, u.activationPercentage ≤ profit →
        u.activationPercentage ≤ t.activationPercentage := by
  intro l
  induction l with
  | nil => intro acc t _ _ u hu; exact absurd hu (List.not_mem_nil u)
  | cons e rest ih =>
    intro acc t hp h u hu hle
    rcases List.pairwise_cons.mp hp with ⟨he, hrest⟩
    unfold get_config_loop at h
    by_cases hc : e.activationPercentage ≤ profit
    · rw [if_pos hc] at h
      rcases List.mem_cons.mp hu with heq | hu'
      · subst heq
        rcases get_config_loop_eq_acc_or_mem profit rest (some u) t h with h1 | h1
        · rw [Option.some.injEq] at h1
          exact h1 ▸ le_refl _
        · exact he t h1
      · exact ih (some e) t hrest h u hu' hle
    · rw [if_neg hc] at h
      rcases List.mem_cons.mp hu with heq | hu'
      · exact absurd (heq ▸ hle) hc
      · exact absurd (le_trans (he u hu') hle) hc

lemma get_config_loop_isSome (profit : ℚ) :
    ∀ (l : List ProfitTier) (a : ProfitTier),
      (get_config_loop profit l (some a)).isSome := by
  intro l
  induction l with
  | nil => intro a; rfl
  | cons e rest ih =>
    intro a
    unfold get_config_loop
    by_cases hc : e.activationPercentage ≤ profit
    · rw [if_pos hc]; exact ih e
    · rw [if_neg hc]; rfl

/-- Claim C5: for every tier list sorted ascending by activation percentage
and every profit value, `get_config_for_profit` never returns a tier whose
activation threshold exceeds the profit; it returns a tier of the list with
the highest activation threshold not exceeding the profit, and an empty
result when the profit is below every tier's threshold (and a non-empty one
when some tier's threshold is met). -/
theorem claim_C5_tier_selection (cfg : List ProfitTier) (profit : ℚ)
    (hsorted : List.Pairwise
      (fun a b => a.activationPercentage ≤ b.activationPercentage) cfg) :
    (∀ t, get_config_for_profit cfg profit = some t →
      t ∈ cfg ∧ t.activationPercentage ≤ profit ∧
        ∀ u ∈ cfg, u.activationPercentage ≤ profit →
          u.activationPercentage ≤ t.activationPercentage) ∧
    ((∀ u ∈ cfg, profit < u.activationPercentage) →
      get_config_for_profit cfg profit = none) ∧
    ((∃ u ∈ cfg, u.activationPercentage ≤ profit) →
      (get_config_for_profit cfg profit).isSome) := by
  refine ⟨?_, ?_, ?_⟩
  · intro t h
    refine ⟨?_, ?_, ?_⟩
    · rcases get_config_loop_eq_acc_or_mem profit cfg none t h with h1 | h1
      · exact Option.noConfusion h1
      · exact h1
    · exact get_config_loop_le profit cfg none t
        (fun a ha => Option.noConfusion ha) h
    · exact get_config_loop_max profit cfg none t hsorted h
  · intro hall
    cases cfg with
    | nil => rfl
    | cons e rest =>
      unfold get_config_for_profit get_config_loop
      rw [if_neg (not_le.mpr (hall e (List.mem_cons_self e rest)))]
  · rintro ⟨u, hu, hle⟩
    cases cfg with
    | nil => exact absurd hu (List.not_mem_nil u)
    | cons e rest =>
      have hec : e.activationPercentage ≤ profit := by
        rcases List.mem_cons.mp hu with heq | hu'
        · exact heq ▸ hle
        · exact le_trans ((List.pairwise_cons.mp hsorted).1 u hu') hle
      unfold get_config_for_profit get_config_loop
      rw [if_pos hec]
      exact get_config_loop_isSome profit rest e

/-- Witness for C5 at the shipped default two-tier configuration and a
profit of 2.5%. -/
theorem claim_C5_witness :
    get_config_for_profit wCfgC5 (5/2) = some wTierC5a ∧
    wTierC5a ∈ wCfgC5 ∧ wTierC5a.activationPercentage ≤ 5/2 := by
  have hs : List.Pairwise
      (fun a b => a.activationPercentage ≤ b.activationPercentage) wCfgC5 := by
    norm_num [wCfgC5, wTierC5a, wTierC5b]
  have hg : get_config_for_profit wCfgC5 (5/2) = some wTierC5a := by
    norm_num [get_config_for_profit, get_config_loop, wCfgC5, wTierC5a, wTierC5b]
  exact ⟨hg, ((claim_C5_tier_selection wCfgC5 (5/2) hs).1 wTierC5a hg).1,
    ((claim_C5_tier_selection wCfgC5 (5/2) hs).1 wTierC5a hg).2.1⟩

/-- Claim C6: the long-direction conversions are the negations of the
short-direction conversions on the same axis, for every stop-loss price and
nonzero reference price. -/
theorem claim_C6_sign_mirror (sl_price ref : ℚ) (_h : ref ≠ 0) :
    calculate_slpercentage_base_price_long sl_price ref =
      -calculate_slpercentage_base_price_short sl_price ref ∧
    calculate_average_price_sl_percentage_long sl_price ref =
      -calculate_average_price_sl_percentage_short sl_price ref := by
  constructor
  · unfold calculate_slpercentage_base_price_long
      calculate_slpercentage_base_price_short
    rw [show (100 : ℚ) - ((sl_price / ref) * 100)
        = -((((sl_price / ref) * 100)) - 100) by ring, round2_neg]
  · unfold calculate_average_price_sl_percentage_long
      calculate_average_price_sl_percentage_short
    rw [show (((sl_price / ref) * 100)) - 100
        = -((100 : ℚ) - ((sl_price / ref) * 100)) by ring, round2_neg]

/-- Witness for C6 at the stop-loss price 100.5 against the reference 100. -/
theorem claim_C6_witness :
    calculate_slpercentage_base_price_long (201/2) 100 =
      -calculate_slpercentage_base_price_short (201/2) 100 ∧
    calculate_average_price_sl_percentage_long (201/2) 100 =
      -calculate_average_price_sl_percentage_short (201/2) 100 :=
  claim_C6_sign_mirror (201/2) 100 (by norm_num)

/-- Claim C7: `calculate_sl_percentage` computes the stop-loss exactly as
specified: the average price is the sold-average for short deals and the
bought-average otherwise, the displacement is
`average_price * (initial_stoploss_percentage/100 +
(activation_diff/100) * sl_increment_factor)`, subtracted for short and
added for long, and the returned percentage is the base-price conversion
of the resulting stop-loss price. -/
theorem claim_C7_sl_formula (d : Deal) (p : ProfitTier) (a : ℚ) :
    calculate_sl_percentage d p a =
      (if d.strategy = "short" then
        (d.soldAveragePrice,
         d.soldAveragePrice - d.soldAveragePrice
           * ((p.initialStoplossPercentage / 100)
             + ((a / 100) * p.slIncrementFactor)),
         calculate_slpercentage_base_price_short
           (d.soldAveragePrice - d.soldAveragePrice
             * ((p.initialStoplossPercentage / 100)
               + ((a / 100) * p.slIncrementFactor)))
           d.baseOrderAveragePrice)
      else
        (d.boughtAveragePrice,
         d.boughtAveragePrice + d.boughtAveragePrice
           * ((p.initialStoplossPercentage / 100)
             + ((a / 100) * p.slIncrementFactor)),
         calculate_slpercentage_base_price_long
           (d.boughtAveragePrice + d.boughtAveragePrice
             * ((p.initialStoplossPercentage / 100)
               + ((a / 100) * p.slIncrementFactor)))
           d.baseOrderAveragePrice)) := by
  by_cases h : d.strategy = "short" <;> simp [calculate_sl_percentage, h]

/-- Claim C8: when the current profit does not strictly exceed the stored
last profit, `handle_update_deal` emits nothing: no platform update and no
database write. -/
theorem claim_C8_no_update_without_increase (deal : Deal) (rec : DealRecord)
    (p : ProfitTier)
    (h : deal.actualProfitPercentage ≤ rec.lastProfitPercentage) :
    handle_update_deal deal rec p = [] := by
  simp [handle_update_deal, not_lt.mpr h]

/-- Witness for C8: a deal at 1% profit against a stored last profit of 2%
produces no actions. -/
theorem claim_C8_witness :
    wDealC8.actualProfitPercentage ≤ wRecC8.lastProfitPercentage ∧
    handle_update_deal wDealC8 wRecC8 wTierC8 = [] := by
  have h : wDealC8.actualProfitPercentage ≤ wRecC8.lastProfitPercentage := by
    norm_num [wDealC8, wRecC8]
  exact ⟨h, claim_C8_no_update_without_increase wDealC8 wRecC8 wTierC8 h⟩

/-- Claim C9: extra fuel beyond `max_safety_orders` never changes the
result of the safety-order ladder: the while-condition bounds the number of
iterations by `max_safety_orders`, so the loop terminates for every input
(including `max_safety_orders` of 0 or 1). -/
theorem claim_C9_fuel_bound (thebot : Bot) (deal : Deal) (fuel : Nat)
    (h : deal.maxSafetyOrders ≤ fuel) :
    calculate_safety_order_fuel thebot deal fuel =
      calculate_safety_order thebot deal := by
  unfold calculate_safety_order
  rw [calculate_safety_order_fuel_eq, calculate_safety_order_fuel_eq]
  by_cases hp : deal.actualProfitPercentage < 0
  · rw [if_pos hp, if_pos hp]
    by_cases hd : thebot.safetyOrderStepPercentage <
        |((deal.currentPrice / deal.baseOrderAveragePrice) * 100) - 100|
    · rw [if_pos hd, if_pos hd]
      congr 1
      exact so_loop_fuel_irrel _ _ _ _ _ fuel deal.maxSafetyOrders 1 _ _ _ _ _
        (by omega) (by omega)
    · rw [if_neg hd, if_neg hd]
  · rw [if_neg hp, if_neg hp]

/-- Witness for C9: with `max_safety_orders = 3`, fuel 10 gives the same
result as fuel 3. -/
theorem claim_C9_witness :
    wDealC9.maxSafetyOrders ≤ 10 ∧
    calculate_safety_order_fuel wBotC9 wDealC9 10 =
      calculate_safety_order wBotC9 wDealC9 :=
  ⟨by norm_num [wDealC9], claim_C9_fuel_bound wBotC9 wDealC9 10 (by norm_num [wDealC9])⟩

/-- Claim C2 (code bug): a deal with `actual_profit_percentage = 0` does
not get the zero/empty result the spec promises: the source's
`return SOCounter, SO_Volume, SO_Price` references `SO_Volume` and
`SO_Price`, which are assigned only inside the negative-profit branch, so
Python raises `UnboundLocalError` (modelled as `none`). -/
theorem claim_C2_crash_on_nonnegative_profit :
    (0 : ℚ) ≤ cexDealC2.actualProfitPercentage ∧
    calculate_safety_order cexBotC2 cexDealC2 = none := by
  constructor
  · norm_num [cexDealC2]
  · norm_num [calculate_safety_order, calculate_safety_order_fuel_eq,
      cexDealC2, cexBotC2]

/-- Counterexample to claim C3: with `max_safety_orders = 0` and a deal in
20% drawdown the ladder still accepts the first safety order, returning
`so_count = 1 > 0 = max_safety_orders`. -/
theorem claim_C3_counterexample :
    cexDealC3.maxSafetyOrders = 0 ∧
    calculate_safety_order cexBotC3 cexDealC3 = some (1, 10, 95) := by
  constructor
  · rfl
  · norm_num [calculate_safety_order, calculate_safety_order_fuel_eq,
      cexDealC3, cexBotC3, so_loop]

/-- Claim C3 as amended: the returned `so_count` never exceeds
`max_safety_orders` provided `max_safety_orders ≥ 1`; for
`max_safety_orders = 0` the first rung can still be accepted (so in general
`so_count ≤ max 1 max_safety_orders`). -/
theorem claim_C3_amended_bound (thebot : Bot) (deal : Deal)
    (r : Nat × ℚ × ℚ) (hmax : 1 ≤ deal.maxSafetyOrders)
    (h : calculate_safety_order thebot deal = some r) :
    r.1 ≤ deal.maxSafetyOrders := by
  unfold calculate_safety_order at h
  rw [calculate_safety_order_fuel_eq] at h
  by_cases hp : deal.actualProfitPercentage < 0
  · rw [if_pos hp] at h
    by_cases hd : thebot.safetyOrderStepPercentage <
        |((deal.currentPrice / deal.baseOrderAveragePrice) * 100) - 100|
    · rw [if_pos hd, Option.some.injEq] at h
      rw [← h]
      exact so_loop_counter_le _ _ _ _ _ _ _ _ _ _ _ _ hmax
    · rw [if_neg hd, Option.some.injEq] at h
      rw [← h]
      exact Nat.zero_le _
  · rw [if_neg hp] at h
    exact Option.noConfusion h

/-- Witness for the amended C3: with `max_safety_orders = 2` the same
drawdown yields `so_count = 2 ≤ 2`. -/
theorem claim_C3_witness :
    calculate_safety_order wBotC3 wDealC3 = some (2, 20, 90) ∧
    (2, (20 : ℚ), (90 : ℚ)).1 ≤ wDealC3.maxSafetyOrders := by
  have h : calculate_safety_order wBotC3 wDealC3 = some (2, 20, 90) := by
    norm_num [calculate_safety_order, calculate_safety_order_fuel_eq,
      wDealC3, wBotC3, so_loop]
  exact ⟨h, claim_C3_amended_bound wBotC3 wDealC3 (2, 20, 90)
    (by norm_num [wDealC3]) h⟩

/-- Counterexample to claim C4: the current take-profit `1.002` is not a
two-decimal value, so with a zero increment factor the computed
`new_tp = round(1.002, 2) = 1.00 < 1.002` — and the emitted update carries
that decreased take-profit instead of leaving take-profit unchanged. -/
theorem claim_C4_counterexample :
    handle_new_deal cexBotC4 cexDealC4 cexTierC4 =
      [Action.updateDealProfit 4 (-1/2) 1,
       Action.addDealRecord 4 7 2 (1/2) 1] ∧
    (1 : ℚ) < cexDealC4.takeProfit := by
  have hstrat : (("long" : String) = "short") = False := by simp
  have h1 : calculate_slpercentage_base_price_long (201/2) 100 = -1/2 := by
    norm_num [calculate_slpercentage_base_price_long, round2, rhe, Int.fract]
  have h2 : calculate_average_price_sl_percentage_long (201/2) 100 = 1/2 := by
    norm_num [calculate_average_price_sl_percentage_long, round2, rhe, Int.fract]
  have h3 : round2 (501/500) = 1 := by
    norm_num [round2, rhe, Int.fract]
  have hsl : calculate_sl_percentage cexDealC4 cexTierC4
      (cexDealC4.actualProfitPercentage - cexTierC4.activationPercentage) =
      (100, 201/2, -1/2) := by
    norm_num [calculate_sl_percentage, hstrat, cexDealC4, cexTierC4, h1]
  constructor
  · simp only [handle_new_deal, hsl]
    norm_num [hstrat, cexBotC4, cexDealC4, cexTierC4, h2, h3]
  · norm_num [cexDealC4]

/-- Claim C4 as amended: the computed take-profit is always sent (the
`new_tp > current_tp` comparison only gates a log line); the sent value
satisfies `new_tp ≥ current_tp` under the additional assumptions that the
current take-profit is an exact two-decimal value and that the increment
term is nonnegative (`activation_diff * tp_increment_factor ≥ 0` for first
activation, `tp_increment_factor ≥ 0` for trailing updates). -/
theorem claim_C4_amended_tp_monotone (thebot : Bot) (deal : Deal)
    (rec : DealRecord) (tier : ProfitTier)
    (htp : round2 deal.takeProfit = deal.takeProfit)
    (hnew : 0 ≤ (deal.actualProfitPercentage - tier.activationPercentage)
      * tier.tpIncrementFactor)
    (hupd : 0 ≤ tier.tpIncrementFactor) :
    (∀ i sl tp, Action.updateDealProfit i sl tp ∈ handle_new_deal thebot deal tier →
      deal.takeProfit ≤ tp) ∧
    (∀ i sl tp, Action.updateDealProfit i sl tp ∈ handle_update_deal deal rec tier →
      deal.takeProfit ≤ tp) := by
  constructor
  · intro i sl tp hmem
    simp only [handle_new_deal] at hmem
    split at hmem
    · simp only [List.mem_cons, List.not_mem_nil, or_false] at hmem
      rcases hmem with h1 | h1
      · injection h1 with hi hsl htp2
        rw [htp2]
        exact le_round2_add_of_nonneg htp hnew
      · exact Action.noConfusion h1
    · exact absurd hmem (List.not_mem_nil _)
  · intro i sl tp hmem
    simp only [handle_update_deal] at hmem
    split at hmem
    case isTrue hlt =>
      split at hmem
      · split at hmem
        · simp only [List.mem_cons, List.not_mem_nil, or_false] at hmem
          rcases hmem with h1 | h1
          · injection h1 with hi hsl htp2
            rw [htp2]
            exact le_round2_add_of_nonneg htp
              (mul_nonneg (by linarith) hupd)
          · exact Action.noConfusion h1
        · exact absurd hmem (List.not_mem_nil _)
      · exact absurd hmem (List.not_mem_nil _)
    case isFalse hlt =>
      exact absurd hmem (List.not_mem_nil _)

/-- Witness for the amended C4: with the two-decimal take-profit `1.00` and
zero increment factor, the emitted update's take-profit is not below the
current one. -/
theorem claim_C4_witness :
    round2 wDealC4.takeProfit = wDealC4.takeProfit ∧
    wDealC4.takeProfit ≤ 1 := by
  have hstrat : (("long" : String) = "short") = False := by simp
  have htp : round2 wDealC4.takeProfit = wDealC4.takeProfit := by
    norm_num [wDealC4, round2, rhe, Int.fract]
  have hnew : 0 ≤ (wDealC4.actualProfitPercentage
      - wTierC4.activationPercentage) * wTierC4.tpIncrementFactor := by
    norm_num [wDealC4, wTierC4]
  have hupd : (0 : ℚ) ≤ wTierC4.tpIncrementFactor := by norm_num [wTierC4]
  have h1 : calculate_slpercentage_base_price_long (201/2) 100 = -1/2 := by
    norm_num [calculate_slpercentage_base_price_long, round2, rhe, Int.fract]
  have h3 : round2 1 = 1 := by norm_num [round2, rhe, Int.fract]
  have hsl : calculate_sl_percentage wDealC4 wTierC4
      (wDealC4.actualProfitPercentage - wTierC4.activationPercentage) =
      (100, 201/2, -1/2) := by
    norm_num [calculate_sl_percentage, hstrat, wDealC4, wTierC4, h1]
  have hmem : Action.updateDealProfit 4 (-1/2) 1 ∈
      handle_new_deal wBotC4 wDealC4 wTierC4 := by
    simp only [handle_new_deal, hsl]
    norm_num [hstrat, wBotC4, wDealC4, wTierC4, h3]
  exact ⟨htp, (claim_C4_amended_tp_monotone wBotC4 wDealC4 wRecC4 wTierC4
    htp hnew hupd).1 4 (-1/2) 1 hmem⟩

/-- Claim C1 (code bug): the conditions of the first-activation decision
all hold for `cexDealC1` (no DealRecord, tier selected, nonzero computed
base SL percentage), and `handle_new_deal` would push the update and create
the record — but `process_deals` never reaches it because of the
unconditional `continue` at source line 285: it performs only safety-order
handling and housekeeping and pushes nothing. -/
theorem claim_C1_continue_disables_activation :
    get_config_for_profit cexCfgC1 cexDealC1.actualProfitPercentage =
      some cexTierC1 ∧
    handle_new_deal cexBotC1 cexDealC1 cexTierC1 =
      [Action.updateDealProfit 1 (-1) 1,
       Action.addDealRecord 1 7 (-1/2) 1 1] ∧
    process_deals cexBotC1 cexCfgC1 (fun _ => none) =
      some (0, [Action.removeClosedDeals 7 [1]]) := by
  have hstrat : (("long" : String) = "short") = False := by simp
  refine ⟨?_, ?_, ?_⟩
  · norm_num [get_config_for_profit, get_config_loop, cexCfgC1, cexTierC1,
      cexDealC1]
  · have h1 : calculate_slpercentage_base_price_long 101 100 = -1 := by
      norm_num [calculate_slpercentage_base_price_long, round2, rhe, Int.fract]
    have h2 : calculate_average_price_sl_percentage_long 101 100 = 1 := by
      norm_num [calculate_average_price_sl_percentage_long, round2, rhe,
        Int.fract]
    have h3 : round2 1 = 1 := by norm_num [round2, rhe, Int.fract]
    have hsl : calculate_sl_percentage cexDealC1 cexTierC1
        (cexDealC1.actualProfitPercentage - cexTierC1.activationPercentage) =
        (100, 101, -1) := by
      norm_num [calculate_sl_percentage, hstrat, cexDealC1, cexTierC1, h1]
    simp only [handle_new_deal, hsl]
    norm_num [hstrat, cexBotC1, cexDealC1, cexTierC1, h2, h3]
  · have hso : calculate_safety_order cexBotC1 cexDealC1 = some (0, 0, 0) := by
      norm_num [calculate_safety_order, calculate_safety_order_fuel_eq,
        cexBotC1, cexDealC1]
    have hhso : handle_safety_orders cexBotC1 cexDealC1 none = some [] := by
      simp [handle_safety_orders, hso]
    have hdeals : cexBotC1.activeDeals = [cexDealC1] := rfl
    have hbotid : cexBotC1.id = 7 := rfl
    have hid : cexDealC1.id = 1 := rfl
    have hst : cexDealC1.strategy = "long" := rfl
    simp [process_deals, process_deals_loop, hdeals, hbotid, hid, hst, hhso]

/-- Claim C10: whatever `process_deals` returns, the monitored-deal count
is 0 (every branch that could set it follows the unconditional `continue`),
so the scheduling loop always reschedules the bot at the check interval. -/
theorem claim_C10_monitored_count_zero (thebot : Bot)
    (cfg : List ProfitTier) (db : Nat → Option DealRecord)
    (r : Nat × List Action) (starttime check_interval monitor_interval : Nat)
    (h : process_deals thebot cfg db = some r) :
    r.1 = 0 ∧ next_process_time starttime check_interval monitor_interval r.1 =
      starttime + check_interval := by
  have hr : r.1 = 0 := by
    simp only [process_deals] at h
    split at h
    · split at h
      · exact Option.noConfusion h
      · rw [Option.some.injEq] at h
        rw [← h]
    · rw [Option.some.injEq] at h
      rw [← h]
  refine ⟨hr, ?_⟩
  unfold next_process_time
  rw [hr, if_pos rfl]

/-- Witness for C10 at a bot with no active deals. -/
theorem claim_C10_witness :
    process_deals wBotC10 [] (fun _ => none) =
      some (0, [Action.removeAllDeals 9]) ∧
    (0, [Action.removeAllDeals 9]).1 = 0 ∧
    next_process_time 1000 120 60 (0, [Action.removeAllDeals 9]).1 =
      1000 + 120 := by
  have h : process_deals wBotC10 [] (fun _ => none) =
      some (0, [Action.removeAllDeals 9]) := by
    simp [process_deals, wBotC10]
  exact ⟨h, claim_C10_monitored_count_zero wBotC10 [] (fun _ => none)
    (0, [Action.removeAllDeals 9]) 1000 120 60 h⟩
